import Mathlib

/-!
Shallow embedding of `node.py` (ComfyUI-LM-Studio): the `LMStudioNode` chat
dispatcher with its two transport paths (LM Studio SDK and raw HTTP API),
thinking-token stripping, statistics formatting, image temp-file handling,
and error conversion.

External effects are modelled explicitly:
* the HTTP transport (`requests.post` plus redirect handling) is an oracle
  `HttpRequest → HttpResult` whose constructors sort outcomes by the
  `except` clause of `_get_response_api` that would catch them;
* the SDK binding (`lmstudio`) is an oracle record `SdkOracle`;
* the filesystem visible to `tempfile` / `os.path.exists` / `os.unlink`
  is a value of type `FS` threaded through the SDK path;
* Python numbers are rationals: a float input denotes the exact value of
  the IEEE-754 double; machine formatting (`:.2f`) is the correctly
  rounded (round-half-even) decimal of that value, as in CPython.
-/

/-! ### Python whitespace and `str.strip`

`str.strip()` removes the characters for which `str.isspace()` holds from
both ends.  The set below is the CPython whitespace set. -/

def isPySpace (c : Char) : Bool :=
  c = ' ' || c = '\t' || c = '\n' || c = '\x0b' || c = '\x0c' || c = '\r' ||
  c = '\x1c' || c = '\x1d' || c = '\x1e' || c = '\x1f' ||
  c = '\u0085' || c = ' ' || c = ' ' ||
  c = ' ' || c = ' ' || c = ' ' || c = ' ' ||
  c = ' ' || c = ' ' || c = ' ' || c = ' ' ||
  c = ' ' || c = ' ' || c = ' ' ||
  c = ' ' || c = ' ' || c = ' ' || c = ' ' || c = '　'

def pyStrip (l : List Char) : List Char :=
  ((l.dropWhile isPySpace).reverse.dropWhile isPySpace).reverse

def pyStripStr (s : String) : String :=
  String.mk (pyStrip s.data)

/-! ### The thinking-token filter (`_clean_thinking_tokens`, node.py:86-88)

`re.sub(r"<think>.*?</think>", "", text, flags=re.DOTALL).strip()`.

The regex engine scans left to right; at the leftmost occurrence of
`<think>` the non-greedy `.*?` (with DOTALL, so newlines included)
matches up to the first following `</think>`; the match is replaced by
the empty string and scanning resumes immediately after it.  If the
leftmost `<think>` has no `</think>` after it, no later position can
match either, so the text is left unchanged. -/

/-- `splitOnFirst pat s = some (a, b)` iff `s = a ++ pat ++ b` with `a`
shortest possible; `none` iff `pat` occurs nowhere in `s`. -/
def splitOnFirst (pat : List Char) : List Char → Option (List Char × List Char)
  | [] => if pat.isEmpty then some ([], []) else none
  | c :: rest =>
    if pat.isPrefixOf (c :: rest) then some ([], (c :: rest).drop pat.length)
    else match splitOnFirst pat rest with
      | some (a, b) => some (c :: a, b)
      | none => none

def openTagC : List Char := "<think>".data
def closeTagC : List Char := "</think>".data

/-- One regex-substitution pass.  The fuel argument only bounds the number
of removed spans; each removal consumes at least the 15 tag characters of
the remaining suffix, so `l.length + 1` units (see `removeThinkSpans`)
can never run out. -/
def removeThinkSpansAux : Nat → List Char → List Char
  | 0, l => l
  | fuel + 1, l =>
    match splitOnFirst openTagC l with
    | none => l
    | some (a, b) =>
      match splitOnFirst closeTagC b with
      | none => l
      | some (_, d) => a ++ removeThinkSpansAux fuel d

def removeThinkSpans (l : List Char) : List Char :=
  removeThinkSpansAux (l.length + 1) l

/-- `LMStudioNode._clean_thinking_tokens` (node.py:86-88). -/
def clean_thinking_tokens (s : String) : String :=
  String.mk (pyStrip (removeThinkSpans s.data))

/-- `text` contains a well-formed `<think>...</think>` span, i.e. an
occurrence of `<think>` with an occurrence of `</think>` somewhere after
it — exactly the texts on which the regex `<think>.*?</think>` (DOTALL)
matches. -/
def hasThinkSpan (s : String) : Bool :=
  match splitOnFirst openTagC s.data with
  | none => false
  | some (_, b) => (splitOnFirst closeTagC b).isSome

/-! ### Statistics formatting (`_format_stats`, node.py:110-116) -/

/-- Round-half-even of the fraction `num / den` (`den ≠ 0` in all uses);
this is the rounding CPython applies when formatting a float with a
fixed number of decimals. -/
def roundHalfEven (num : Int) (den : Nat) : Int :=
  let d : Int := den
  let f := Int.ediv num d
  let r := num - d * f
  if 2 * r < d then f
  else if d < 2 * r then f + 1
  else if f % 2 = 0 then f else f + 1

def twoDigits (m : Nat) : String :=
  if m < 10 then "0" ++ Nat.repr m else Nat.repr m

/-- Fixed-point rendering of the nonnegative value `num / den` with two
decimals. -/
def fmtFloat2Aux (num : Int) (den : Nat) : String :=
  let n := (roundHalfEven (100 * num) den).toNat
  Nat.repr (n / 100) ++ "." ++ twoDigits (n % 100)

/-- CPython `format(x, ".2f")` on the exact (rational) value of the
double `x`: correctly rounded two-decimal rendering, negative values
prefixed with a minus sign (even when they round to `0.00`). -/
def fmtFloat2 (q : ℚ) : String :=
  if q.num < 0 then "-" ++ fmtFloat2Aux (-q.num) q.den
  else fmtFloat2Aux q.num q.den

/-- `LMStudioNode._format_stats` (node.py:110-116); argument types follow
the source annotations `(float, int, int)`. -/
def format_stats (tokens_per_sec : ℚ) (input_tokens output_tokens : Int) : String :=
  "Tokens per Second: " ++ fmtFloat2 tokens_per_sec ++ "\n" ++
  "Input Tokens: " ++ Int.repr input_tokens ++ "\n" ++
  "Output Tokens: " ++ Int.repr output_tokens

/-- `self.default_stats` (node.py:29). -/
def default_stats : String :=
  "Tokens per Second: 0.00\nInput Tokens: 0\nOutput Tokens: 0"

/-! ### JSON values and Python subscript/`.get` semantics

`response.json()` yields Python objects built from `None`, `bool`, `int`,
`float`, `str`, `list`, `dict`; subscripting and `dict.get` on them raise
the usual `KeyError` / `IndexError` / `TypeError` / `AttributeError`,
whose `str()` forms are modelled verbatim. -/

/-- A single ASCII apostrophe, as used by CPython exception messages. -/
def pyQ : String := (Char.ofNat 39).toString

def pyQuote (s : String) : String := pyQ ++ s ++ pyQ

inductive JVal where
  | jnull
  | jbool (b : Bool)
  | jint (n : Int)
  | jfloat (q : ℚ)
  | jstr (s : String)
  | jarr (xs : List JVal)
  | jobj (kvs : List (String × JVal))

def typeName : JVal → String
  | .jnull => "NoneType"
  | .jbool _ => "bool"
  | .jint _ => "int"
  | .jfloat _ => "float"
  | .jstr _ => "str"
  | .jarr _ => "list"
  | .jobj _ => "dict"

/-- Python `v[key]` for a string key. -/
def pySubscriptField : JVal → String → Except String JVal
  | .jobj kvs, k =>
    match kvs.lookup k with
    | some v => .ok v
    | none => .error (pyQuote k)
  | .jarr _, _ => .error "list indices must be integers or slices, not str"
  | .jstr _, _ => .error ("string indices must be integers, not " ++ pyQuote "str")
  | v, _ => .error (pyQuote (typeName v) ++ " object is not subscriptable")

/-- Python `v[i]` for a nonnegative integer index. -/
def pySubscriptIdx : JVal → Nat → Except String JVal
  | .jarr xs, i =>
    match xs.get? i with
    | some v => .ok v
    | none => .error "list index out of range"
  | .jstr s, i =>
    match s.data.get? i with
    | some c => .ok (.jstr c.toString)
    | none => .error "string index out of range"
  | .jobj _, i => .error (Nat.repr i)
  | v, _ => .error (pyQuote (typeName v) ++ " object is not subscriptable")

/-- Python `v.get(key, dflt)` — an `AttributeError` unless `v` is a dict. -/
def pyDictGet (v : JVal) (key : String) (dflt : JVal) : Except String JVal :=
  match v with
  | .jobj kvs => .ok ((kvs.lookup key).getD dflt)
  | _ => .error (pyQuote (typeName v) ++ " object has no attribute " ++ pyQuote "get")

/-- The value occupying the `tokens_per_second` slot, as consumed by the
`:.2f` f-string conversion (bools are ints in Python; non-numbers raise). -/
def jvalToQ : JVal → Except String ℚ
  | .jint n => .ok (n : ℚ)
  | .jfloat q => .ok q
  | .jbool b => .ok (if b then 1 else 0)
  | .jstr _ =>
    .error ("Unknown format code " ++ pyQuote "f" ++ " for object of type " ++ pyQuote "str")
  | .jnull => .error "unsupported format string passed to NoneType.__format__"
  | .jarr _ => .error "unsupported format string passed to list.__format__"
  | .jobj _ => .error "unsupported format string passed to dict.__format__"

/-- Conversion of a JSON value occupying an integer token-count slot.
CPython would interpolate any object into the stats f-string via `str()`;
the typed model accepts the values the wire contract allows here —
integers, and bools, which are ints in Python — and reports anything else
as an error value.  No behaviour examined by the claims feeds a
non-integer token count. -/
def jvalToInt : JVal → Except String Int
  | .jint n => .ok n
  | .jbool b => .ok (if b then 1 else 0)
  | v => .error ("non-integer token count: " ++ typeName v)

/-- `result["choices"][0]["message"]["content"]` (node.py:251). -/
def extractContent (j : JVal) : Except String JVal := do
  let choices ← pySubscriptField j "choices"
  let c0 ← pySubscriptIdx choices 0
  let msg ← pySubscriptField c0 "message"
  pySubscriptField msg "content"

/-- `self._clean_thinking_tokens(output)` applied to a decoded JSON value:
`re.sub` raises a `TypeError` on non-strings (node.py:252-253). -/
def cleanJVal (v : JVal) : Except String JVal :=
  match v with
  | .jstr s => .ok (.jstr (clean_thinking_tokens s))
  | v => .error ("expected string or bytes-like object, got " ++ pyQuote (typeName v))

/-! ### The HTTP path (`_get_response_api`, node.py:223-272) -/

structure HttpRequest where
  url : String
  headers : List (String × String)
  payload : JVal
  timeout : Nat

inductive HttpResult where
  /-- `requests.exceptions.ConnectionError` and its subclasses, including
  `ConnectTimeout` (which is also a `Timeout` but is caught by the
  `ConnectionError` clause, listed first in the source). -/
  | connError (msg : String)
  /-- `requests.exceptions.Timeout` outcomes that are not
  `ConnectionError`s (i.e. `ReadTimeout`). -/
  | timeoutError (msg : String)
  /-- any other exception raised by `requests.post` itself
  (`TooManyRedirects`, `InvalidURL`, ...). -/
  | requestError (msg : String)
  /-- a completed exchange: final status code, reason phrase and final URL
  (after any redirect following inside `requests.post`), and the result of
  `response.json()` — a parsed value, or the `JSONDecodeError` message. -/
  | response (status : Nat) (reason : String) (url : String) (body : Except String JVal)

/-- The request `_get_response_api` hands to `requests.post`
(node.py:227-245): URL, headers, JSON payload and the fixed timeout. -/
def mkApiRequest (system_prompt user_message model_id server_address : String)
    (temperature : ℚ) : HttpRequest :=
  { url := server_address ++ "/api/v0/chat/completions"
    headers := [("Content-Type", "application/json")]
    payload := .jobj [
      ("model", .jstr model_id),
      ("messages", .jarr [
        .jobj [("role", .jstr "system"), ("content", .jstr system_prompt)],
        .jobj [("role", .jstr "user"), ("content", .jstr user_message)]]),
      ("temperature", .jfloat temperature),
      ("stream", .jbool false)]
    timeout := 120 }

/-- `response.raise_for_status()`: raises `HTTPError` exactly for status
codes 400-599, with the message `requests` builds from status, reason and
final URL. -/
def raise_for_status (status : Nat) (reason url : String) : Except String Unit :=
  if 400 ≤ status ∧ status < 500 then
    .error (Nat.repr status ++ " Client Error: " ++ reason ++ " for url: " ++ url)
  else if 500 ≤ status ∧ status < 600 then
    .error (Nat.repr status ++ " Server Error: " ++ reason ++ " for url: " ++ url)
  else .ok ()

/-- The body of the `try` block of `_get_response_api` after the transport
returned (node.py:246-265), in source order. -/
def apiProcess (status : Nat) (reason url : String) (body : Except String JVal)
    (thinking_tokens : Bool) : Except String (JVal × String) := do
  let _ ← raise_for_status status reason url
  let result ← body
  let content ← extractContent result
  let output ← if thinking_tokens then pure content else cleanJVal content
  let usage ← pyDictGet result "usage" (.jobj [])
  let stats ← pyDictGet result "stats" (.jobj [])
  let tpsV ← pyDictGet stats "tokens_per_second" (.jfloat 0)
  let itkV ← pyDictGet usage "prompt_tokens" (.jint 0)
  let otkV ← pyDictGet usage "completion_tokens" (.jint 0)
  let tps ← jvalToQ tpsV
  let itk ← jvalToInt itkV
  let otk ← jvalToInt otkV
  return (output, format_stats tps itk otk)

/-- `LMStudioNode._get_response_api` (node.py:223-272).  `transport` is
the `requests.post` oracle.  The `debug` parameter is accepted and unused,
as in the source. -/
def get_response_api (system_prompt user_message model_id server_address : String)
    (temperature : ℚ) (thinking_tokens : Bool) (debug : Bool)
    (transport : HttpRequest → HttpResult) : JVal × String :=
  match transport (mkApiRequest system_prompt user_message model_id server_address temperature) with
  | .connError _ =>
    (.jstr ("Connection error - is LM Studio running at " ++ server_address ++ "?"), default_stats)
  | .timeoutError _ =>
    (.jstr "Request timed out - try increasing timeout duration", default_stats)
  | .requestError msg => (.jstr ("Error: " ++ msg), default_stats)
  | .response status reason url body =>
    match apiProcess status reason url body thinking_tokens with
    | .ok pair => pair
    | .error e => (.jstr ("Error: " ++ e), default_stats)

/-! ### Filesystem, temp files, and the SDK path (`_get_response_sdk`)

The filesystem records the files visible to `os.path.exists` / `os.unlink`
plus a counter from which `tempfile.NamedTemporaryFile` derives its next
unique name. -/

structure FS where
  files : List String
  counter : Nat

def freshName (fs : FS) : String :=
  "/tmp/tmp" ++ Nat.repr fs.counter ++ ".jpg"

/-- How one `_prepare_image` call can go (node.py:90-108):
`Image.fromarray` may raise (before any file exists), creating the
named temporary file may raise, or `pil_image.save` may raise after
the file was created with `delete=False`. -/
inductive PrepOutcome where
  | fromarrayError
  | tempfileError
  | saveError
  | saved
deriving DecidableEq

/-- What `model.respond` receives: the chat seeded with the system prompt
and one user turn (with optional image handles), plus the generation
config `{temperature, maxTokens}` (node.py:166-192). -/
structure SdkRespondArgs where
  system_prompt : String
  user_message : String
  images : List String
  temperature : ℚ
  maxTokens : Int

/-- What `model.respond` returns.  `result.stats` attributes read via
`getattr(..., default)` in the source are optional; `statsTypeName` is
the runtime class name of `result.stats`, used in the `AttributeError`
message when the debug-only direct access
`result.stats.generation_time_sec` (node.py:196) finds no such
attribute. -/
structure SdkResult where
  content : String
  statsTypeName : String
  generation_time_sec : Option ℚ
  tokens_per_second : Option ℚ
  prompt_tokens_count : Option Int
  predicted_tokens_count : Option Int

/-- The `lmstudio` SDK binding as an oracle.  `Img` is the opaque host
image-tensor type. -/
structure SdkOracle (Img : Type) where
  /-- `lms.llm(model_id)` — loads or raises. -/
  llm : String → Except String Unit
  /-- how the PIL conversion/save inside `_prepare_image` goes for a
  given image. -/
  prep : Img → PrepOutcome
  /-- `lms.prepare_image(temp_path)` — returns an image handle or raises. -/
  prepareImageHandle : String → Except String String
  /-- `model.respond(chat, config=config)` — the SDK completion call. -/
  respond : SdkRespondArgs → Except String SdkResult

def no_attribute (tn attr : String) : String :=
  pyQuote tn ++ " object has no attribute " ++ pyQuote attr

/-- `LMStudioNode._prepare_image` (node.py:90-108): returns the temp-file
path, or `None` when any step raised; when `pil_image.save` raises the
already-created file stays on disk and its path is lost. -/
def prepare_image {Img : Type} (o : SdkOracle Img) (image : Img) (debug : Bool)
    (fs : FS) : Option String × FS :=
  match o.prep image with
  | .fromarrayError => (none, fs)
  | .tempfileError => (none, fs)
  | .saveError => (none, { files := freshName fs :: fs.files, counter := fs.counter + 1 })
  | .saved => (some (freshName fs), { files := freshName fs :: fs.files, counter := fs.counter + 1 })

/-- The tail of the `try` block of `_get_response_sdk` from the
`model.respond` call on (node.py:192-210): the debug-only
`result.stats.generation_time_sec` access, `getattr` extraction with
zero defaults, optional output cleaning, stats formatting.  This stage
touches neither `temp_path` nor the filesystem. -/
def sdkRespondStage {Img : Type} (o : SdkOracle Img) (args : SdkRespondArgs)
    (thinking_tokens debug : Bool) : Except String (JVal × String) :=
  match o.respond args with
  | .error e => .error e
  | .ok r =>
    if debug && r.generation_time_sec.isNone then
      .error (no_attribute r.statsTypeName "generation_time_sec")
    else
      let tokens_per_sec := r.tokens_per_second.getD 0
      let input_tokens := r.prompt_tokens_count.getD 0
      let output_tokens := r.predicted_tokens_count.getD 0
      let output := if thinking_tokens then r.content
        else clean_thinking_tokens r.content
      .ok (.jstr output, format_stats tokens_per_sec input_tokens output_tokens)

/-- The whole `try` block of `_get_response_sdk` (node.py:157-210),
returning its outcome together with the `temp_path` variable and the
filesystem as they stand when the block exits. -/
def sdkBody {Img : Type} (o : SdkOracle Img)
    (system_prompt user_message model_id : String) (temperature : ℚ)
    (max_tokens : Int) (thinking_tokens : Bool) (image : Option Img)
    (debug : Bool) (fs : FS) :
    Except String (JVal × String) × Option String × FS :=
  match o.llm model_id with
  | .error e => (.error e, none, fs)
  | .ok _ =>
    match image with
    | none =>
      (sdkRespondStage o
        ⟨system_prompt, user_message, [], temperature, max_tokens⟩
        thinking_tokens debug, none, fs)
    | some img =>
      match prepare_image o img debug fs with
      | (some temp_path, fs1) =>
        match o.prepareImageHandle temp_path with
        | .error e => (.error e, some temp_path, fs1)
        | .ok handle =>
          (sdkRespondStage o
            ⟨system_prompt, user_message, [handle], temperature, max_tokens⟩
            thinking_tokens debug, some temp_path, fs1)
      | (none, fs1) =>
        (sdkRespondStage o
          ⟨system_prompt, user_message, [], temperature, max_tokens⟩
          thinking_tokens debug, none, fs1)

/-- The `finally` clause (node.py:216-221): unlink the temp file if its
path is known and it exists. -/
def sdkFinally (temp_path : Option String) (fs : FS) : FS :=
  match temp_path with
  | some p => if fs.files.contains p then { fs with files := fs.files.erase p } else fs
  | none => fs

/-- `LMStudioNode._get_response_sdk` (node.py:151-221): run the `try`
block, run the `finally` cleanup on every exit, convert any exception to
the error pair (node.py:212-215). -/
def get_response_sdk {Img : Type} (o : SdkOracle Img)
    (system_prompt user_message model_id : String) (temperature : ℚ)
    (max_tokens : Int) (thinking_tokens : Bool) (image : Option Img)
    (debug : Bool) (fs : FS) : (JVal × String) × FS :=
  match sdkBody o system_prompt user_message model_id temperature max_tokens
      thinking_tokens image debug fs with
  | (body, temp_path, fs1) =>
    let fs2 := sdkFinally temp_path fs1
    match body with
    | .ok pair => (pair, fs2)
    | .error e =>
      ((.jstr ("Error processing with LM Studio SDK: " ++ e), default_stats), fs2)

/-! ### The dispatcher (`get_response`, node.py:118-149) -/

/-- `LMStudioNode.get_response`.  `HAS_SDK` is the process-wide flag set
at import time (node.py:12-18); `o` and `transport` are the SDK and HTTP
oracles; `fs` is the filesystem before the call.  Returns the
(response, stats) pair and the filesystem after the call. -/
def get_response {Img : Type} (HAS_SDK : Bool) (o : SdkOracle Img)
    (transport : HttpRequest → HttpResult)
    (system_prompt user_message model_id server_address : String)
    (temperature : ℚ) (max_tokens : Int) (thinking_tokens : Bool)
    (use_sdk : Bool) (image : Option Img) (debug : Bool) (fs : FS) :
    (JVal × String) × FS :=
  let user_message := if thinking_tokens then user_message
    else clean_thinking_tokens user_message
  if HAS_SDK && use_sdk then
    get_response_sdk o system_prompt user_message model_id temperature
      max_tokens thinking_tokens image debug fs
  else
    (get_response_api system_prompt user_message model_id server_address
      temperature thinking_tokens debug transport, fs)

/-- The condition under which a call leaks a file: SDK path reached the
image-preparation step (model load succeeded, an image is present) and
`pil_image.save` raised after `NamedTemporaryFile` had created the file
with `delete=False`, so `_prepare_image` returned `None` and the
`finally` clause has no path to unlink. -/
def leakCond {Img : Type} (o : SdkOracle Img) (model_id : String)
    (img : Option Img) : Bool :=
  match img with
  | none => false
  | some i =>
    (match o.llm model_id with | .ok _ => true | .error _ => false)
    && (o.prep i == .saveError)

/-- A server body whose only content is an echo of a fixed string, used
to observe output-side filtering on the HTTP path. -/
def echoBody (c : String) : JVal :=
  .jobj [("choices", .jarr [.jobj [("message", .jobj [("content", .jstr c)])]])]

/-- The spec mock success body:
`{"choices":[{"message":{"content":"Hello"}}],"usage":{"prompt_tokens":5,
"completion_tokens":2},"stats":{"tokens_per_second":3.0}}`. -/
def c6Body : JVal :=
  .jobj [
    ("choices", .jarr [.jobj [("message", .jobj [("content", .jstr "Hello")])]]),
    ("usage", .jobj [("prompt_tokens", .jint 5), ("completion_tokens", .jint 2)]),
    ("stats", .jobj [("tokens_per_second", .jfloat 3)])]

/-- The same body with `usage` and `stats` absent. -/
def c6BodyBare : JVal :=
  .jobj [("choices", .jarr [.jobj [("message", .jobj [("content", .jstr "Hello")])]])]

/-- The same body with only some statistics fields present. -/
def c6BodyPartial : JVal :=
  .jobj [
    ("choices", .jarr [.jobj [("message", .jobj [("content", .jstr "Hello")])]]),
    ("usage", .jobj [("prompt_tokens", .jint 5)]),
    ("stats", .jobj [])]

/-- The exact value of the IEEE-754 double denoted by the Python float
literal `12.345`, namely `6949617174986097 / 2^49`. -/
def double12_345 : ℚ :=
  ⟨6949617174986097, 562949953421312, by norm_num, by decide⟩

/-! ### Spec-side reformulation of the filter

`specRemoveThink` is written from the words of the specification
("remove every substring delimited by a pair of sentinel tags, inclusive
of the tags, matching across newlines, non-greedy, multi-span"): scan the
text left to right; whenever the opening tag starts here and the closing
tag occurs later, drop everything through the first closing tag and
continue after it; otherwise keep the character and move on. -/

theorem splitOnFirst_eq_append (pat : List Char) :
    ∀ (s a b : List Char), splitOnFirst pat s = some (a, b) → s = a ++ pat ++ b := by
  intro s
  induction s with
  | nil =>
    intro a b h
    simp only [splitOnFirst] at h
    by_cases hp : pat.isEmpty
    · rw [if_pos hp] at h
      rw [List.isEmpty_iff] at hp
      simp only [Option.some.injEq, Prod.mk.injEq] at h
      obtain ⟨ha, hb⟩ := h
      subst ha; subst hb
      simp [hp]
    · rw [if_neg hp] at h
      cases h
  | cons c rest ih =>
    intro a b h
    simp only [splitOnFirst] at h
    by_cases hp : pat.isPrefixOf (c :: rest)
    · rw [if_pos hp] at h
      simp only [Option.some.injEq, Prod.mk.injEq] at h
      obtain ⟨ha, hb⟩ := h
      obtain ⟨t, ht⟩ := List.isPrefixOf_iff_prefix.mp hp
      subst ha
      rw [← hb, ← ht]
      simp [List.drop_left]
    · rw [if_neg hp] at h
      match hr : splitOnFirst pat rest with
      | some (a', b') =>
        rw [hr] at h
        simp only [Option.some.injEq, Prod.mk.injEq] at h
        obtain ⟨ha, hb⟩ := h
        subst ha; subst hb
        have := ih a' b' hr
        simp [this]
      | none => rw [hr] at h; cases h

theorem splitOnFirst_length_lt (pat : List Char) (hpat : pat ≠ [])
    {s a b : List Char} (h : splitOnFirst pat s = some (a, b)) :
    b.length < s.length := by
  have he := splitOnFirst_eq_append pat s a b h
  have : s.length = a.length + pat.length + b.length := by
    rw [he]; simp [List.length_append]; omega
  have hp1 : 1 ≤ pat.length := by
    cases pat with
    | nil => exact absurd rfl hpat
    | cons _ _ => simp
  omega

def specRemoveThink (l : List Char) : List Char :=
  match l with
  | [] => []
  | c :: rest =>
    if openTagC.isPrefixOf (c :: rest) then
      match hs : splitOnFirst closeTagC ((c :: rest).drop openTagC.length) with
      | some (_, d) => specRemoveThink d
      | none => c :: rest
    else
      c :: specRemoveThink rest
termination_by l.length
decreasing_by
  · have h1 : ((c :: rest).drop openTagC.length).length < (c :: rest).length := by
      simp only [List.length_drop, List.length_cons,
        show openTagC.length = 7 from rfl]
      omega
    have h2 := splitOnFirst_length_lt closeTagC (by simp [closeTagC]) hs
    omega
  · simp

def specCleanThinking (s : String) : String :=
  String.mk (pyStrip (specRemoveThink s.data))

theorem specRemoveThink_of_no_open :
    ∀ l : List Char, splitOnFirst openTagC l = none → specRemoveThink l = l := by
  intro l
  induction l with
  | nil => intro _; simp [specRemoveThink]
  | cons c rest ih =>
    intro h
    by_cases hp : openTagC.isPrefixOf (c :: rest)
    · simp only [splitOnFirst, if_pos hp] at h
      exact Option.noConfusion h
    · unfold specRemoveThink
      rw [if_neg hp]
      simp only [splitOnFirst, if_neg hp] at h
      match hr : splitOnFirst openTagC rest with
      | some (a', b') => rw [hr] at h; cases h
      | none => rw [ih hr]

theorem specRemoveThink_of_no_close :
    ∀ (l a b : List Char), splitOnFirst openTagC l = some (a, b) →
      splitOnFirst closeTagC b = none → specRemoveThink l = l := by
  intro l
  induction l with
  | nil =>
    intro a b h _
    simp only [splitOnFirst, show openTagC.isEmpty = false from rfl] at h
    rw [if_neg (by decide)] at h
    exact Option.noConfusion h
  | cons c rest ih =>
    intro a b h hc
    by_cases hp : openTagC.isPrefixOf (c :: rest)
    · simp only [splitOnFirst, if_pos hp, Option.some.injEq, Prod.mk.injEq] at h
      unfold specRemoveThink
      rw [if_pos hp]
      split
      · next _ d heq =>
        rw [h.2, hc] at heq
        exact Option.noConfusion heq
      · rfl
    · simp only [splitOnFirst, if_neg hp] at h
      unfold specRemoveThink
      rw [if_neg hp]
      match hr : splitOnFirst openTagC rest with
      | some (a', b') =>
        rw [hr] at h
        simp only [Option.some.injEq, Prod.mk.injEq] at h
        rw [ih a' b' hr (h.2 ▸ hc)]
      | none => rw [hr] at h; exact Option.noConfusion h

theorem specRemoveThink_of_close :
    ∀ (l a b p d : List Char), splitOnFirst openTagC l = some (a, b) →
      splitOnFirst closeTagC b = some (p, d) →
      specRemoveThink l = a ++ specRemoveThink d := by
  intro l
  induction l with
  | nil =>
    intro a b p d h _
    simp only [splitOnFirst, show openTagC.isEmpty = false from rfl] at h
    rw [if_neg (by decide)] at h
    exact Option.noConfusion h
  | cons c rest ih =>
    intro a b p d h hc
    by_cases hp : openTagC.isPrefixOf (c :: rest)
    · simp only [splitOnFirst, if_pos hp, Option.some.injEq, Prod.mk.injEq] at h
      conv_lhs => rw [specRemoveThink]
      rw [if_pos hp]
      split
      · next _ d' heq =>
        rw [h.2, hc] at heq
        simp only [Option.some.injEq, Prod.mk.injEq] at heq
        rw [← h.1, heq.2]
        simp
      · next heq =>
        rw [h.2, hc] at heq
        exact Option.noConfusion heq
    · simp only [splitOnFirst, if_neg hp] at h
      conv_lhs => rw [specRemoveThink]
      rw [if_neg hp]
      match hr : splitOnFirst openTagC rest with
      | some (a', b') =>
        rw [hr] at h
        simp only [Option.some.injEq, Prod.mk.injEq] at h
        rw [ih a' b' p d hr (h.2 ▸ hc), ← h.1]
        simp
      | none => rw [hr] at h; exact Option.noConfusion h

theorem removeThinkSpansAux_eq_spec :
    ∀ (fuel : Nat) (l : List Char), l.length < fuel →
      removeThinkSpansAux fuel l = specRemoveThink l := by
  intro fuel
  induction fuel with
  | zero => intro l h; omega
  | succ fuel ih =>
    intro l hl
    simp only [removeThinkSpansAux]
    split
    · next ho => rw [specRemoveThink_of_no_open l ho]
    · next a b ho =>
      split
      · next hc => rw [specRemoveThink_of_no_close l a b ho hc]
      · next p d hc =>
        rw [specRemoveThink_of_close l a b p d ho hc]
        have h1 := splitOnFirst_length_lt openTagC (by simp [openTagC]) ho
        have h2 := splitOnFirst_length_lt closeTagC (by simp [closeTagC]) hc
        rw [ih d (by omega)]

/-- The source regex pass coincides with the spec-side formulation. -/
theorem removeThinkSpans_eq_spec (l : List Char) :
    removeThinkSpans l = specRemoveThink l :=
  removeThinkSpansAux_eq_spec (l.length + 1) l (Nat.lt_succ_self _)

/-- Text without a well-formed span passes through the substitution
unchanged. -/
theorem removeThinkSpans_of_no_span (s : String) (h : hasThinkSpan s = false) :
    removeThinkSpans s.data = s.data := by
  unfold hasThinkSpan at h
  unfold removeThinkSpans removeThinkSpansAux
  split
  · rfl
  · next a b ho =>
    rw [ho] at h
    simp only at h
    split
    · rfl
    · next p d hc => rw [hc] at h; simp at h

/-! ### Helper lemmas about the SDK path -/

/-- When every successful respond outcome carries `generation_time_sec`,
the respond stage does not depend on `debug`. -/
theorem sdkRespondStage_debug_irrelevant {Img : Type} (o : SdkOracle Img)
    (hgen : ∀ a r, o.respond a = .ok r → r.generation_time_sec.isSome)
    (args : SdkRespondArgs) (tt : Bool) :
    sdkRespondStage o args tt true = sdkRespondStage o args tt false := by
  unfold sdkRespondStage
  cases hr : o.respond args with
  | error e => rfl
  | ok r =>
    have hg := hgen args r hr
    rw [Option.isSome_iff_exists] at hg
    obtain ⟨q, hq⟩ := hg
    simp [hq]

/-! ### Claim theorems -/

/-- C1: `get_response` always returns a (response, stats) pair — the
embedding is a total function — and on the SDK path every exception the
`try` block can produce is caught and converted: when the block fails
with message `e` the result is the pair
(`"Error processing with LM Studio SDK: " ++ e`, default all-zero
stats), and when it succeeds its pair is returned unchanged; the
`finally` cleanup runs in both cases. -/
theorem claim_C1 {Img : Type} (H : Bool) (o : SdkOracle Img)
    (t : HttpRequest → HttpResult) (sys u m addr : String) (τ : ℚ)
    (mt : Int) (tt sdk : Bool) (img : Option Img) (dbg : Bool) (fs : FS)
    (h : (H && sdk) = true) :
    (∀ e tp fs1,
      sdkBody o sys (if tt then u else clean_thinking_tokens u) m τ mt tt img dbg fs
        = (.error e, tp, fs1) →
      get_response H o t sys u m addr τ mt tt sdk img dbg fs
        = ((.jstr ("Error processing with LM Studio SDK: " ++ e), default_stats),
           sdkFinally tp fs1))
    ∧ (∀ p tp fs1,
      sdkBody o sys (if tt then u else clean_thinking_tokens u) m τ mt tt img dbg fs
        = (.ok p, tp, fs1) →
      get_response H o t sys u m addr τ mt tt sdk img dbg fs
        = (p, sdkFinally tp fs1)) := by
  constructor <;> intro x tp fs1 hb <;>
    simp only [get_response, get_response_sdk, h, if_true] <;>
    rw [hb]

/-- C1 witness: a concrete failing SDK call (model load raises `boom`)
produces the converted error pair. -/
theorem claim_C1_witness :
    get_response true
      (⟨fun _ => .error "boom", fun _ => .saved, fun p => .ok p,
        fun _ => .error "x"⟩ : SdkOracle Unit)
      (fun _ => .connError "") "s" "u" "m" "a" 0 0 true true none false ⟨[], 0⟩
      = ((.jstr "Error processing with LM Studio SDK: boom", default_stats), ⟨[], 0⟩) := by
  exact (claim_C1 true
    (⟨fun _ => .error "boom", fun _ => .saved, fun p => .ok p,
      fun _ => .error "x"⟩ : SdkOracle Unit)
    (fun _ => .connError "") "s" "u" "m" "a" 0 0 true true none false ⟨[], 0⟩
    rfl).1 "boom" none ⟨[], 0⟩ rfl

/-- C2: the SDK path is taken iff the binding is available and
`use_sdk` is set, with any supplied image forwarded to it; otherwise the
HTTP path is taken and the result does not depend on the supplied image
at all (the image is dropped without error). -/
theorem claim_C2 {Img : Type} (H : Bool) (o : SdkOracle Img)
    (t : HttpRequest → HttpResult) (sys u m addr : String) (τ : ℚ)
    (mt : Int) (tt sdk : Bool) (img : Option Img) (dbg : Bool) (fs : FS) :
    ((H && sdk) = true →
      get_response H o t sys u m addr τ mt tt sdk img dbg fs
        = get_response_sdk o sys (if tt then u else clean_thinking_tokens u) m
            τ mt tt img dbg fs)
    ∧ ((H && sdk) = false →
      get_response H o t sys u m addr τ mt tt sdk img dbg fs
        = (get_response_api sys (if tt then u else clean_thinking_tokens u) m
            addr τ tt dbg t, fs)
      ∧ ∀ img2 : Option Img,
        get_response H o t sys u m addr τ mt tt sdk img dbg fs
          = get_response H o t sys u m addr τ mt tt sdk img2 dbg fs) := by
  constructor
  · intro h
    simp only [get_response, h, if_true]
  · intro h
    constructor
    · simp only [get_response, h, Bool.false_eq_true, if_false]
    · intro img2
      simp only [get_response, h, Bool.false_eq_true, if_false]

/-- C2 witness: with the binding absent the HTTP path is taken and an
image input is ignored. -/
theorem claim_C2_witness :
    get_response false
      (⟨fun _ => .error "e", fun _ => .saved, fun p => .ok p,
        fun _ => .error "x"⟩ : SdkOracle Unit)
      (fun _ => .connError "") "s" "u" "m" "a" 0 0 true true (some ()) false ⟨[], 0⟩
      = (get_response_api "s" "u" "m" "a" 0 true false (fun _ => .connError ""), ⟨[], 0⟩)
    ∧ get_response false
      (⟨fun _ => .error "e", fun _ => .saved, fun p => .ok p,
        fun _ => .error "x"⟩ : SdkOracle Unit)
      (fun _ => .connError "") "s" "u" "m" "a" 0 0 true true (some ()) false ⟨[], 0⟩
      = get_response false
      (⟨fun _ => .error "e", fun _ => .saved, fun p => .ok p,
        fun _ => .error "x"⟩ : SdkOracle Unit)
      (fun _ => .connError "") "s" "u" "m" "a" 0 0 true true none false ⟨[], 0⟩ := by
  refine ⟨?_, ?_⟩
  · exact ((claim_C2 false _ _ "s" "u" "m" "a" 0 0 true true (some ()) false ⟨[], 0⟩).2 rfl).1
  · exact ((claim_C2 false _ _ "s" "u" "m" "a" 0 0 true true (some ()) false ⟨[], 0⟩).2 rfl).2 none

/-- C9: on the HTTP path the `max_tokens` argument influences neither the
request handed to the transport nor the returned pair — two calls
differing only in `max_tokens` are indistinguishable for every
transport. -/
theorem claim_C9 {Img : Type} (H : Bool) (o : SdkOracle Img)
    (sys u m addr : String) (τ : ℚ) (tt sdk : Bool) (img : Option Img)
    (dbg : Bool) (fs : FS) (h : (H && sdk) = false) :
    ∀ (t : HttpRequest → HttpResult) (m1 m2 : Int),
      get_response H o t sys u m addr τ m1 tt sdk img dbg fs
        = get_response H o t sys u m addr τ m2 tt sdk img dbg fs := by
  intro t m1 m2
  simp only [get_response, h, Bool.false_eq_true, if_false]

/-- C9 witness: concrete HTTP-path calls with `max_tokens` 1 and 4096
coincide. -/
theorem claim_C9_witness :
    get_response false
      (⟨fun _ => .error "e", fun _ => .saved, fun p => .ok p,
        fun _ => .error "x"⟩ : SdkOracle Unit)
      (fun _ => .timeoutError "t") "s" "u" "m" "a" 0 1 true true none false ⟨[], 0⟩
      = get_response false
      (⟨fun _ => .error "e", fun _ => .saved, fun p => .ok p,
        fun _ => .error "x"⟩ : SdkOracle Unit)
      (fun _ => .timeoutError "t") "s" "u" "m" "a" 0 4096 true true none false ⟨[], 0⟩ :=
  claim_C9 false _ "s" "u" "m" "a" 0 true true none false ⟨[], 0⟩ rfl
    (fun _ => .timeoutError "t") 1 4096

/-- The filesystem after an SDK-path call is the `finally`-cleanup of the
filesystem the `try` block left behind. -/
theorem get_response_sdk_files {Img : Type} (o : SdkOracle Img)
    (sys u m : String) (τ : ℚ) (mt : Int) (tt : Bool) (img : Option Img)
    (dbg : Bool) (fs : FS) :
    (get_response_sdk o sys u m τ mt tt img dbg fs).2
      = sdkFinally (sdkBody o sys u m τ mt tt img dbg fs).2.1
          (sdkBody o sys u m τ mt tt img dbg fs).2.2 := by
  unfold get_response_sdk
  rcases h : sdkBody o sys u m τ mt tt img dbg fs with ⟨body, tp, fs1⟩
  cases body <;> simp

/-- C3 (amended): complete characterisation of the files on disk after a
call — unchanged in every case except the save-failure leak, where
exactly the freshly created temp file survives.  In particular a temp
file is created only on the SDK path with an image supplied, and every
temp file whose path `_prepare_image` returned is deleted before the
call returns, on success, caught failure and exception alike. -/
theorem claim_C3 {Img : Type} (H : Bool) (o : SdkOracle Img)
    (t : HttpRequest → HttpResult) (sys u m addr : String) (τ : ℚ)
    (mt : Int) (tt sdk : Bool) (img : Option Img) (dbg : Bool) (fs : FS) :
    (get_response H o t sys u m addr τ mt tt sdk img dbg fs).2.files
      = if (H && sdk) && leakCond o m img then freshName fs :: fs.files
        else fs.files := by
  cases hH : H && sdk with
  | false =>
    simp only [get_response, hH, Bool.false_eq_true, if_false, Bool.false_and]
  | true =>
    simp only [get_response, hH, if_true, Bool.true_and, leakCond]
    rw [get_response_sdk_files]
    unfold sdkBody
    cases hl : o.llm m with
    | error e => cases img <;> simp [sdkFinally]
    | ok _ =>
      cases img with
      | none => simp [sdkFinally]
      | some i =>
        cases hp : o.prep i with
        | fromarrayError => simp [prepare_image, hp, sdkFinally]
        | tempfileError => simp [prepare_image, hp, sdkFinally]
        | saveError => simp [prepare_image, hp, sdkFinally]
        | saved =>
          cases hh : o.prepareImageHandle (freshName fs) with
          | error e => simp [prepare_image, hp, hh, sdkFinally, List.contains_cons]
          | ok handle => simp [prepare_image, hp, hh, sdkFinally, List.contains_cons]

/-- C3 counterexample: a concrete SDK-path call that created a temp file
(the filesystem starts empty and gains `/tmp/tmp0.jpg`) and still shows
the file on disk after the call returns: the model loads, and JPEG
encoding fails after `NamedTemporaryFile` created the file. -/
theorem claim_C3_counterexample :
    (get_response true
      (⟨fun _ => .ok (), fun _ => .saveError, fun p => .ok p,
        fun _ => .error "x"⟩ : SdkOracle Unit)
      (fun _ => .connError "") "s" "u" "m" "a" 0 0 true true (some ()) false
      ⟨[], 0⟩).2.files = ["/tmp/tmp0.jpg"]
    ∧ List.contains
        ((get_response true
          (⟨fun _ => .ok (), fun _ => .saveError, fun p => .ok p,
            fun _ => .error "x"⟩ : SdkOracle Unit)
          (fun _ => .connError "") "s" "u" "m" "a" 0 0 true true (some ()) false
          ⟨[], 0⟩).2.files) "/tmp/tmp0.jpg" = true := by
  exact ⟨rfl, rfl⟩

/-- C5 (amended): with `thinking_tokens = False` the user message handed
to whichever transport is selected is exactly the single-pass filter
image `clean_thinking_tokens user_message` (first conjunct: the dispatch
equation), and the response text produced from a transport content `c`
is exactly `clean_thinking_tokens c` (second conjunct).  A single filter
pass can splice the ends of removed spans into a new well-formed
`<think>...</think>` span, and error responses embed raw text, so
span-freedom of the handed message and of the returned response does not
hold in general (see the counterexample). -/
theorem claim_C5 {Img : Type} (H : Bool) (o : SdkOracle Img)
    (t : HttpRequest → HttpResult) (sys u m addr : String) (τ : ℚ)
    (mt : Int) (sdk : Bool) (img : Option Img) (dbg : Bool) (fs : FS)
    (c : String) :
    (get_response H o t sys u m addr τ mt false sdk img dbg fs
      = if H && sdk then
          get_response_sdk o sys (clean_thinking_tokens u) m τ mt false img dbg fs
        else
          (get_response_api sys (clean_thinking_tokens u) m addr τ false dbg t, fs))
    ∧ get_response_api sys (clean_thinking_tokens u) m addr τ false dbg
        (fun _ => .response 200 "OK" "u" (.ok (echoBody c)))
      = (.jstr (clean_thinking_tokens c), default_stats) := by
  constructor
  · rfl
  · rfl

/-- C5 counterexample: with `thinking_tokens = False` and the user
message `<think<think>x</think>></think>`, the single filter pass leaves
`<think></think>` — a well-formed span — as the message handed to the
SDK transport, and a respond failure echoing that message produces a
returned response text that itself contains a well-formed
`<think>...</think>` span. -/
theorem claim_C5_counterexample :
    (get_response true
      (⟨fun _ => .ok (), fun _ => .fromarrayError, fun p => .ok p,
        fun a => .error a.user_message⟩ : SdkOracle Unit)
      (fun _ => .connError "")
      "s" "<think<think>x</think>></think>" "m" "a" 0 0 false true none false
      ⟨[], 0⟩).1
      = (.jstr "Error processing with LM Studio SDK: <think></think>", default_stats)
    ∧ hasThinkSpan "Error processing with LM Studio SDK: <think></think>" = true
    ∧ clean_thinking_tokens "<think<think>x</think>></think>" = "<think></think>"
    ∧ hasThinkSpan "<think></think>" = true := by
  exact ⟨rfl, rfl, rfl, rfl⟩

/-- C10 (amended): the `debug` flag never changes the returned pair on
the HTTP path, and on the SDK path it never changes the returned pair
provided every successful respond outcome carries the
`generation_time_sec` attribute that the debug branch dereferences
directly (node.py:196).  When that attribute is absent, `debug = True`
turns a success into an SDK error response (see the counterexample). -/
theorem claim_C10 {Img : Type} (H : Bool) (o : SdkOracle Img)
    (t : HttpRequest → HttpResult) (sys u m addr : String) (τ : ℚ)
    (mt : Int) (tt sdk : Bool) (img : Option Img) (fs : FS) :
    ((H && sdk) = false →
      get_response H o t sys u m addr τ mt tt sdk img true fs
        = get_response H o t sys u m addr τ mt tt sdk img false fs)
    ∧ ((∀ a r, o.respond a = .ok r → r.generation_time_sec.isSome) →
      get_response H o t sys u m addr τ mt tt sdk img true fs
        = get_response H o t sys u m addr τ mt tt sdk img false fs) := by
  constructor
  · intro h
    simp only [get_response, h, Bool.false_eq_true, if_false]
    rfl
  · intro hgen
    have hstage : ∀ args tt2, sdkRespondStage o args tt2 true = sdkRespondStage o args tt2 false :=
      fun args tt2 => sdkRespondStage_debug_irrelevant o hgen args tt2
    have hprep : ∀ (i : Img) (fs2 : FS), prepare_image o i true fs2 = prepare_image o i false fs2 :=
      fun _ _ => rfl
    have hapi : ∀ u2 : String,
        get_response_api sys u2 m addr τ tt true t
          = get_response_api sys u2 m addr τ tt false t :=
      fun _ => rfl
    unfold get_response get_response_sdk sdkBody
    simp only [hstage, hprep, hapi]

/-- C10 counterexample: an SDK result whose stats object lacks
`generation_time_sec` (while the three `getattr`-guarded attributes are
also absent, as the source anticipates) makes the two calls that differ
only in `debug` return different pairs: `debug=True` hits the
unguarded attribute access inside the `try` block and yields the
converted `AttributeError`, `debug=False` returns the completion. -/
theorem claim_C10_counterexample :
    (get_response true
      (⟨fun _ => .ok (), fun _ => .fromarrayError, fun p => .ok p,
        fun _ => .ok ⟨"ok", "LlmPredictionStats", none, none, none, none⟩⟩ :
        SdkOracle Unit)
      (fun _ => .connError "") "s" "u" "m" "a" 0 0 true true none true ⟨[], 0⟩).1
      = (.jstr ("Error processing with LM Studio SDK: "
          ++ pyQuote "LlmPredictionStats" ++ " object has no attribute "
          ++ pyQuote "generation_time_sec"), default_stats)
    ∧ (get_response true
      (⟨fun _ => .ok (), fun _ => .fromarrayError, fun p => .ok p,
        fun _ => .ok ⟨"ok", "LlmPredictionStats", none, none, none, none⟩⟩ :
        SdkOracle Unit)
      (fun _ => .connError "") "s" "u" "m" "a" 0 0 true true none false ⟨[], 0⟩).1
      = (.jstr "ok", default_stats)
    ∧ ("Error processing with LM Studio SDK: "
          ++ pyQuote "LlmPredictionStats" ++ " object has no attribute "
          ++ pyQuote "generation_time_sec") ≠ "ok" := by
  refine ⟨rfl, rfl, by decide⟩

/-- C10 witness: on the HTTP path (binding absent) the two debug settings
give identical results. -/
theorem claim_C10_witness :
    get_response false
      (⟨fun _ => .error "e", fun _ => .saved, fun p => .ok p,
        fun _ => .error "x"⟩ : SdkOracle Unit)
      (fun _ => .timeoutError "t") "s" "u" "m" "a" 0 0 true true none true ⟨[], 0⟩
      = get_response false
      (⟨fun _ => .error "e", fun _ => .saved, fun p => .ok p,
        fun _ => .error "x"⟩ : SdkOracle Unit)
      (fun _ => .timeoutError "t") "s" "u" "m" "a" 0 0 true true none false ⟨[], 0⟩ :=
  (claim_C10 false _ _ "s" "u" "m" "a" 0 0 true true none ⟨[], 0⟩).1 rfl

/-- C4: the thinking-token filter is exactly the spec-described
operation — the non-greedy multi-span removal (`specRemoveThink`,
written from the specification text) followed by a whitespace trim — and
on text with no well-formed span it is the trim alone. -/
theorem claim_C4 (s : String) :
    clean_thinking_tokens s = specCleanThinking s
    ∧ (hasThinkSpan s = false → clean_thinking_tokens s = pyStripStr s) := by
  constructor
  · unfold clean_thinking_tokens specCleanThinking
    rw [removeThinkSpans_eq_spec]
  · intro h
    unfold clean_thinking_tokens pyStripStr
    rw [removeThinkSpans_of_no_span s h]

/-- C4 witness: a multi-span, multi-line input agrees with the spec
formulation, and a span-free input (an unclosed tag) is merely
trimmed. -/
theorem claim_C4_witness :
    clean_thinking_tokens "a <think>x\ny</think> b <think>z</think> c"
      = specCleanThinking "a <think>x\ny</think> b <think>z</think> c"
    ∧ (hasThinkSpan " tail <think> open " = false
      ∧ clean_thinking_tokens " tail <think> open " = pyStripStr " tail <think> open ") :=
  ⟨(claim_C4 "a <think>x\ny</think> b <think>z</think> c").1,
   by decide,
   (claim_C4 " tail <think> open ").2 (by decide)⟩

/-- C6: the HTTP request is exactly the documented JSON object POSTed to
`server_address ++ "/api/v0/chat/completions"` with a 120-second
timeout, and a 2xx response of the documented shape yields
`("Hello", "Tokens per Second: 3.00\nInput Tokens: 5\nOutput Tokens: 2")`,
with absent `usage`/`stats` fields (wholesale or field-by-field)
defaulting to zero. -/
theorem claim_C6 (sys u m addr : String) (τ : ℚ) (dbg : Bool)
    (reason url2 : String) :
    mkApiRequest sys u m addr τ
      = { url := addr ++ "/api/v0/chat/completions",
          headers := [("Content-Type", "application/json")],
          payload := .jobj [
            ("model", .jstr m),
            ("messages", .jarr [
              .jobj [("role", .jstr "system"), ("content", .jstr sys)],
              .jobj [("role", .jstr "user"), ("content", .jstr u)]]),
            ("temperature", .jfloat τ),
            ("stream", .jbool false)],
          timeout := 120 }
    ∧ get_response_api sys u m addr τ true dbg
        (fun _ => .response 200 reason url2 (.ok c6Body))
      = (.jstr "Hello", "Tokens per Second: 3.00\nInput Tokens: 5\nOutput Tokens: 2")
    ∧ get_response_api sys u m addr τ true dbg
        (fun _ => .response 200 reason url2 (.ok c6BodyBare))
      = (.jstr "Hello", "Tokens per Second: 0.00\nInput Tokens: 0\nOutput Tokens: 0")
    ∧ get_response_api sys u m addr τ true dbg
        (fun _ => .response 200 reason url2 (.ok c6BodyPartial))
      = (.jstr "Hello", "Tokens per Second: 0.00\nInput Tokens: 5\nOutput Tokens: 0") :=
  ⟨rfl, rfl, rfl, rfl⟩

/-- C7 (amended): on the HTTP path a connection-refused/unreachable error
names the configured server address; a (read) timeout reports a timeout;
and every exception caught by the generic handler — an HTTPError from a
4xx or 5xx status, a JSON decode failure, a missing key — yields
`"Error: "` followed by the exception message; all with the default
all-zero stats.  Statuses outside 400-599 do not raise: a non-2xx,
non-error status (e.g. 301) is processed as a normal response (see the
counterexample). -/
theorem claim_C7 (sys u m addr : String) (τ : ℚ) (tt dbg : Bool)
    (msg reason url2 e : String) (st : Nat) (body : Except String JVal) :
    (get_response_api sys u m addr τ tt dbg (fun _ => .connError msg)
      = (.jstr ("Connection error - is LM Studio running at " ++ addr ++ "?"),
         default_stats))
    ∧ (get_response_api sys u m addr τ tt dbg (fun _ => .timeoutError msg)
      = (.jstr "Request timed out - try increasing timeout duration", default_stats))
    ∧ (400 ≤ st → st < 500 →
      get_response_api sys u m addr τ tt dbg (fun _ => .response st reason url2 body)
        = (.jstr ("Error: " ++ Nat.repr st ++ " Client Error: " ++ reason
            ++ " for url: " ++ url2), default_stats))
    ∧ (500 ≤ st → st < 600 →
      get_response_api sys u m addr τ tt dbg (fun _ => .response st reason url2 body)
        = (.jstr ("Error: " ++ Nat.repr st ++ " Server Error: " ++ reason
            ++ " for url: " ++ url2), default_stats))
    ∧ (get_response_api sys u m addr τ tt dbg
        (fun _ => .response 200 reason url2 (.error e))
      = (.jstr ("Error: " ++ e), default_stats))
    ∧ (get_response_api sys u m addr τ tt dbg
        (fun _ => .response 200 reason url2 (.ok (.jobj [])))
      = (.jstr ("Error: " ++ pyQuote "choices"), default_stats)) := by
  refine ⟨rfl, rfl, ?_, ?_, rfl, rfl⟩
  · intro h1 h2
    have hrfs : raise_for_status st reason url2
        = .error (Nat.repr st ++ " Client Error: " ++ reason ++ " for url: " ++ url2) := by
      unfold raise_for_status
      rw [if_pos ⟨h1, h2⟩]
    show (match apiProcess st reason url2 body tt with
      | .ok pair => pair
      | .error e2 => (.jstr ("Error: " ++ e2), default_stats)) = _
    unfold apiProcess
    rw [hrfs]
    rfl
  · intro h1 h2
    have hrfs : raise_for_status st reason url2
        = .error (Nat.repr st ++ " Server Error: " ++ reason ++ " for url: " ++ url2) := by
      unfold raise_for_status
      rw [if_neg (by omega), if_pos ⟨h1, h2⟩]
    show (match apiProcess st reason url2 body tt with
      | .ok pair => pair
      | .error e2 => (.jstr ("Error: " ++ e2), default_stats)) = _
    unfold apiProcess
    rw [hrfs]
    rfl

/-- C7 witness: concrete 404 and 503 responses, a decode failure, a
missing-key body, a connection failure and a timeout, all as the amended
claim states. -/
theorem claim_C7_witness :
    (get_response_api "s" "u" "m" "http://host" 0 true false
      (fun _ => .response 404 "Not Found" "u2" (.ok (.jobj [])))
      = (.jstr "Error: 404 Client Error: Not Found for url: u2", default_stats))
    ∧ (get_response_api "s" "u" "m" "http://host" 0 true false
      (fun _ => .response 503 "Service Unavailable" "u2" (.ok (.jobj [])))
      = (.jstr "Error: 503 Server Error: Service Unavailable for url: u2",
         default_stats))
    ∧ (get_response_api "s" "u" "m" "http://host" 0 true false
      (fun _ => .connError "refused")
      = (.jstr "Connection error - is LM Studio running at http://host?",
         default_stats)) := by
  refine ⟨?_, ?_, ?_⟩
  · exact (claim_C7 "s" "u" "m" "http://host" 0 true false "refused" "Not Found"
      "u2" "e" 404 (.ok (.jobj []))).2.2.1 (by decide) (by decide)
  · exact (claim_C7 "s" "u" "m" "http://host" 0 true false "refused"
      "Service Unavailable" "u2" "e" 503 (.ok (.jobj []))).2.2.2.1
      (by decide) (by decide)
  · exact (claim_C7 "s" "u" "m" "http://host" 0 true false "refused" "r" "u2" "e"
      404 (.ok (.jobj []))).1

/-- C7 counterexample: a 301 response (non-2xx) does not raise in
`raise_for_status`, so a well-formed body is processed as a success: the
response text is the content, not an `"Error: ..."` string. -/
theorem claim_C7_counterexample :
    get_response_api "s" "u" "m" "http://host" 0 true false
      (fun _ => .response 301 "Moved Permanently" "u2"
        (.ok (.jobj [("choices",
          .jarr [.jobj [("message", .jobj [("content", .jstr "Hi")])]])])))
      = (.jstr "Hi", default_stats)
    ∧ ("Error: ".isPrefixOf "Hi") = false :=
  ⟨rfl, rfl⟩

/-! ### C8: stats text shape -/

theorem digitChar_ne_newline (n : Nat) : Nat.digitChar n ≠ '\n' := by
  by_cases hlt : n < 16
  · interval_cases n <;> decide
  · unfold Nat.digitChar
    have hne : ∀ k : Nat, k < 16 → ¬ n = k := by omega
    rw [if_neg (hne 0 (by norm_num)), if_neg (hne 1 (by norm_num)),
      if_neg (hne 2 (by norm_num)), if_neg (hne 3 (by norm_num)),
      if_neg (hne 4 (by norm_num)), if_neg (hne 5 (by norm_num)),
      if_neg (hne 6 (by norm_num)), if_neg (hne 7 (by norm_num)),
      if_neg (hne 8 (by norm_num)), if_neg (hne 9 (by norm_num)),
      if_neg (hne 10 (by norm_num)), if_neg (hne 11 (by norm_num)),
      if_neg (hne 12 (by norm_num)), if_neg (hne 13 (by norm_num)),
      if_neg (hne 14 (by norm_num)), if_neg (hne 15 (by norm_num))]
    decide

theorem toDigitsCore_ne_newline :
    ∀ (fuel n : Nat) (ds : List Char), (∀ c ∈ ds, c ≠ '\n') →
      ∀ c ∈ Nat.toDigitsCore 10 fuel n ds, c ≠ '\n' := by
  intro fuel
  induction fuel with
  | zero => intro n ds hds; simpa [Nat.toDigitsCore] using hds
  | succ fuel ih =>
    intro n ds hds
    rw [Nat.toDigitsCore]
    split
    · intro c hc
      rcases List.mem_cons.mp hc with hceq | hcm
      · subst hceq; exact digitChar_ne_newline _
      · exact hds c hcm
    · apply ih
      intro c hc
      rcases List.mem_cons.mp hc with hceq | hcm
      · subst hceq; exact digitChar_ne_newline _
      · exact hds c hcm

theorem natRepr_count_newline (n : Nat) : (Nat.repr n).data.count '\n' = 0 := by
  rw [List.count_eq_zero]
  intro hmem
  exact toDigitsCore_ne_newline (n + 1) n [] (by intro c hc; cases hc) '\n' hmem rfl

theorem intRepr_count_newline (i : Int) : (Int.repr i).data.count '\n' = 0 := by
  cases i with
  | ofNat m => exact natRepr_count_newline m
  | negSucc m =>
    have h : Int.repr (Int.negSucc m) = "-" ++ Nat.repr (m + 1) := rfl
    rw [h, String.data_append, List.count_append, natRepr_count_newline]
    decide

theorem twoDigits_count_newline (m : Nat) : (twoDigits m).data.count '\n' = 0 := by
  unfold twoDigits
  split
  · rw [String.data_append, List.count_append, natRepr_count_newline]
    decide
  · exact natRepr_count_newline _

theorem fmtFloat2Aux_count_newline (num : Int) (den : Nat) :
    (fmtFloat2Aux num den).data.count '\n' = 0 := by
  simp only [fmtFloat2Aux, String.data_append, List.count_append,
    natRepr_count_newline, twoDigits_count_newline]
  decide

theorem fmtFloat2_count_newline (q : ℚ) : (fmtFloat2 q).data.count '\n' = 0 := by
  unfold fmtFloat2
  split
  · rw [String.data_append, List.count_append, fmtFloat2Aux_count_newline]
    decide
  · exact fmtFloat2Aux_count_newline _ _

/-- C8: the stats text always consists of exactly three lines (two
newline separators, none inside any of the three fields), and at the
spec example — the double `12.345`, 10 and 20 — it is
`"Tokens per Second: 12.35\nInput Tokens: 10\nOutput Tokens: 20"`
(the tokens-per-second field is rounded to two decimals). -/
theorem claim_C8 :
    (∀ (t : ℚ) (i o : Int), (format_stats t i o).data.count '\n' = 2)
    ∧ format_stats double12_345 10 20
      = "Tokens per Second: 12.35\nInput Tokens: 10\nOutput Tokens: 20" := by
  constructor
  · intro t i o
    unfold format_stats
    simp only [String.data_append, List.count_append, fmtFloat2_count_newline,
      intRepr_count_newline]
    decide
  · rfl
